import Mathlib

/-!
Shallow embedding of the paths-le extraction/validation pipeline.

Each definition translates one function of the TypeScript source:
 - `src/extraction/extract.ts` (file-type dispatch and extraction results),
 - `src/utils/safety.ts` (safety gate),
 - `src/utils/errorHandling.ts` (error taxonomy, sanitization, logging),
 - `src/config/config.ts` (configuration with enforced numeric floors),
 - `src/commands/extract.ts` (batch path resolution),
 - the dedupe post-processing command.

Strings are modelled by Lean `String` (JavaScript `.length` counts UTF-16
code units; Lean `String.length` counts code points — the two agree on all
strings used in concrete evaluations here, and the distinction is recorded
where it matters). JavaScript objects become structures, union-of-literal
types become `String` fields, `undefined`-able fields become `Option`, and
`Date.now()` timestamps become explicit `Nat` parameters.
-/

/-! Section: Extraction (`src/extraction/extract.ts`) -/

/-- The `FileType` union of `src/types`: the internal tag produced by
`determineFileType`. -/
inductive FileType where
  | csv | toml | dotenv | javascript | typescript | json | html | css | unknown
  deriving DecidableEq, Repr

/-- A `Path` value `{ value, line?, column? }` produced by an extractor. -/
structure PathItem where
  value : String
  line : Option Nat := none
  column : Option Nat := none
  deriving DecidableEq, Repr

/-- Metadata attached to the unsupported-format `ParseError`
(`{ languageId, supportedFormats }`). -/
structure ParseErrorMeta where
  languageId : String
  supportedFormats : List String
  deriving DecidableEq, Repr

/-- A `ParseError` record. Category, severity and recovery action are
string-literal unions in the source and are modelled as strings. -/
structure ParseError where
  category : String
  severity : String
  message : String
  context : Option String := none
  recoverable : Bool
  recoveryAction : String
  timestamp : Nat
  metadata : Option ParseErrorMeta := none
  deriving DecidableEq, Repr

/-- An `ExtractionResult` record `{ success, paths, errors }`. -/
structure ExtractionResult where
  success : Bool
  paths : List PathItem
  errors : List ParseError
  deriving DecidableEq, Repr

/-- The seven per-format extractors imported by `extract.ts` from
`./formats/*`. Their bodies are regex scanners over host strings and none
of the claims below depends on their output, so they are kept abstract:
every theorem quantifies over an arbitrary `Extractors` record. -/
structure Extractors where
  extractFromCsv : String → List PathItem
  extractFromToml : String → List PathItem
  extractFromDotenv : String → List PathItem
  extractFromJavaScript : String → List PathItem
  extractFromJson : String → List PathItem
  extractFromCss : String → List PathItem
  extractFromHtml : String → List PathItem

/-- Embeds `determineFileType(languageId)`: the pure lookup table mapping a
language id to a `FileType`, defaulting to `unknown`. -/
def determineFileType (languageId : String) : FileType :=
  if languageId = "csv" then .csv
  else if languageId = "toml" then .toml
  else if languageId = "dotenv" ∨ languageId = "env" then .dotenv
  else if languageId = "javascript" ∨ languageId = "javascriptreact" then .javascript
  else if languageId = "typescript" ∨ languageId = "typescriptreact" then .typescript
  else if languageId = "json" ∨ languageId = "jsonc" then .json
  else if languageId = "html" then .html
  else if languageId = "css" ∨ languageId = "scss" ∨ languageId = "less" then .css
  else .unknown

/-- Embeds `extractPathsByFileType(content, fileType)`: the switch dispatching to
the per-format extractor (`javascript` and `typescript` share one). -/
def extractPathsByFileType (ext : Extractors) (content : String)
    (fileType : FileType) : List PathItem :=
  match fileType with
  | .csv => ext.extractFromCsv content
  | .toml => ext.extractFromToml content
  | .dotenv => ext.extractFromDotenv content
  | .javascript => ext.extractFromJavaScript content
  | .typescript => ext.extractFromJavaScript content
  | .json => ext.extractFromJson content
  | .css => ext.extractFromCss content
  | .html => ext.extractFromHtml content
  | .unknown => []

/-- Embeds `buildUnsupportedFormatResult(languageId)`: the frozen failure result
for an unsupported format. Note the source literally writes
`recoveryAction: 'none'`. `Date.now()` is the explicit `now` argument. -/
def buildUnsupportedFormatResult (now : Nat) (languageId : String) :
    ExtractionResult :=
  let error : ParseError :=
    { category := "format"
      severity := "info"
      message := "Path extraction is not supported for " ++ languageId ++
        " files. Supported formats: CSV, TOML, ENV, JS, TS, JSON, HTML, CSS."
      context := some ("File type: " ++ languageId)
      recoverable := false
      recoveryAction := "none"
      timestamp := now
      metadata := some
        { languageId := languageId
          supportedFormats :=
            ["csv", "toml", "dotenv", "javascript", "typescript", "json",
             "html", "css"] } }
  { success := false, paths := [], errors := [error] }

/-- Embeds `extractPaths(content, languageId)`: resolve the file type; return the
unsupported-format failure when it is `unknown`, otherwise a frozen success
result with the extracted paths and no errors. -/
def extractPaths (ext : Extractors) (now : Nat) (content languageId : String) :
    ExtractionResult :=
  let fileType := determineFileType languageId
  if fileType = .unknown then
    buildUnsupportedFormatResult now languageId
  else
    { success := true
      paths := extractPathsByFileType ext content fileType
      errors := [] }

/-- Extractors that find nothing, used as a concrete instantiation in
witnesses (the theorems hold for every `Extractors` record). -/
def trivialExtractors : Extractors :=
  { extractFromCsv := fun _ => []
    extractFromToml := fun _ => []
    extractFromDotenv := fun _ => []
    extractFromJavaScript := fun _ => []
    extractFromJson := fun _ => []
    extractFromCss := fun _ => []
    extractFromHtml := fun _ => [] }

/-- C1: for every content string and every language id that
`determineFileType` maps to `unknown`, `extractPaths` returns `success =
false`, an empty path list, and exactly one error, and that error has
category `format`, severity `info`, and `recoverable = false`. -/
theorem extractPaths_unknown_format_result
    (ext : Extractors) (now : Nat) (content languageId : String)
    (h : determineFileType languageId = .unknown) :
    (extractPaths ext now content languageId).success = false ∧
    (extractPaths ext now content languageId).paths = [] ∧
    (extractPaths ext now content languageId).errors.length = 1 ∧
    ∀ e ∈ (extractPaths ext now content languageId).errors,
      e.category = "format" ∧ e.severity = "info" ∧ e.recoverable = false := by
  have hres : extractPaths ext now content languageId =
      buildUnsupportedFormatResult now languageId := by
    simp [extractPaths, h]
  rw [hres]
  refine ⟨rfl, rfl, rfl, ?_⟩
  intro e he
  simp only [buildUnsupportedFormatResult, List.mem_singleton] at he
  subst he
  exact ⟨rfl, rfl, rfl⟩

/-- Witness for C1 at the concrete language id `markdown`. -/
theorem extractPaths_unknown_format_result_witness :
    determineFileType "markdown" = .unknown ∧
    ((extractPaths trivialExtractors 0 "a/b.txt" "markdown").success = false ∧
     (extractPaths trivialExtractors 0 "a/b.txt" "markdown").paths = [] ∧
     (extractPaths trivialExtractors 0 "a/b.txt" "markdown").errors.length = 1 ∧
     ∀ e ∈ (extractPaths trivialExtractors 0 "a/b.txt" "markdown").errors,
       e.category = "format" ∧ e.severity = "info" ∧ e.recoverable = false) :=
  ⟨by decide,
   extractPaths_unknown_format_result trivialExtractors 0 "a/b.txt" "markdown"
     (by decide)⟩

/-- C10: whenever `extractPaths` returns `success = true`, its error list
is empty — a successful extraction never carries parse errors. -/
theorem extractPaths_success_no_errors
    (ext : Extractors) (now : Nat) (content languageId : String)
    (h : (extractPaths ext now content languageId).success = true) :
    (extractPaths ext now content languageId).errors = [] := by
  by_cases hft : determineFileType languageId = .unknown
  · have hres : extractPaths ext now content languageId =
        buildUnsupportedFormatResult now languageId := by
      simp [extractPaths, hft]
    rw [hres] at h
    exact absurd h (by simp [buildUnsupportedFormatResult])
  · simp [extractPaths, hft]

/-- Witness for C10 at the concrete language id `json`. -/
theorem extractPaths_success_no_errors_witness :
    (extractPaths trivialExtractors 0 "{}" "json").success = true ∧
    (extractPaths trivialExtractors 0 "{}" "json").errors = [] :=
  ⟨by decide,
   extractPaths_success_no_errors trivialExtractors 0 "{}" "json" (by decide)⟩

/-! Section: Error handling (`src/utils/errorHandling.ts`) -/

/-- A JavaScript `Error` value: its `message` and optional `stack`. -/
structure JsError where
  message : String
  stack : Option String := none
  deriving DecidableEq, Repr

/-- An `EnhancedError` record. `severity` here is the enhanced-error scale
(`low`/`medium`/`high`); the `new Date()` timestamp is the explicit `now`
argument of `createEnhancedError`. -/
structure EnhancedError where
  category : String
  originalError : JsError
  message : String
  userFriendlyMessage : String
  userMessage : String
  suggestion : String
  recoverable : Bool
  severity : String
  timestamp : Nat
  deriving DecidableEq, Repr

/-- Boolean test that `sub` starts the list `s` (models the leading part of
JavaScript `String.prototype.includes`). -/
def leadsWith : List Char → List Char → Bool
  | [], _ => true
  | _ :: _, [] => false
  | l :: ls, c :: cs => c = l && leadsWith ls cs

/-- Boolean substring test over character lists. -/
def hasSubstring (sub : List Char) : List Char → Bool
  | [] => leadsWith sub []
  | c :: cs => leadsWith sub (c :: cs) || hasSubstring sub cs

/-- JavaScript `haystack.includes(needle)`. -/
def strIncludes (haystack needle : String) : Bool :=
  hasSubstring needle.data haystack.data

/-- Embeds `isErrorRecoverable(error, category)`: category-based recoverability
with message keyword checks for `file-system` and `operational`. -/
def isErrorRecoverable (error : JsError) (category : String) : Bool :=
  if category = "parse" ∨ category = "parsing" then true
  else if category = "file-system" then
    strIncludes error.message "permission" || strIncludes error.message "network"
  else if category = "configuration" ∨ category = "validation" then true
  else if category = "safety" then false
  else if category = "operational" then !(strIncludes error.message "fatal")
  else false

/-- Embeds `buildUserFriendlyMessage(error, category, context)`: the localized
format strings with their `{0}` argument substituted. -/
def buildUserFriendlyMessage (error : JsError) (category : String)
    (context : Option String) : String :=
  if category = "parse" ∨ category = "parsing" then
    "Failed to parse path values: " ++ context.getD "unknown file"
  else if category = "file-system" then "File system error: " ++ error.message
  else if category = "configuration" then
    "Configuration error: " ++ error.message
  else if category = "validation" then
    "Path validation failed: " ++ error.message
  else if category = "safety" then
    "Safety threshold exceeded: " ++ error.message
  else if category = "operational" then
    "Path extraction failed: " ++ error.message
  else "Unknown error: " ++ error.message

/-- Embeds `buildErrorSuggestion(category)`: the per-category suggestion switch. -/
def buildErrorSuggestion (category : String) : String :=
  if category = "parse" ∨ category = "parsing" then
    "Check the path format and ensure values are valid"
  else if category = "file-system" then
    "Check file permissions and ensure the file exists"
  else if category = "configuration" then
    "Reset to default settings or check configuration syntax"
  else if category = "validation" then
    "Review path values and ensure they meet validation criteria"
  else if category = "safety" then
    "Reduce file size or adjust safety thresholds"
  else if category = "operational" then
    "Try again or check system resources"
  else "Check the logs for more details and consider reporting this issue"

/-- Embeds `createEnhancedError(error, category, context?, options?)`. The source
reads only `context?.filepath` from the context record, modelled as
`contextFilepath`; the three option fields are the `Option` arguments. -/
def createEnhancedError (now : Nat) (error : JsError) (category : String)
    (contextFilepath : Option String := none)
    (optRecoverable : Option Bool := none)
    (optSeverity : Option String := none)
    (optSuggestion : Option String := none) : EnhancedError :=
  let userFriendlyMessage := buildUserFriendlyMessage error category contextFilepath
  let suggestion := optSuggestion.getD (buildErrorSuggestion category)
  let recoverable := optRecoverable.getD (isErrorRecoverable error category)
  let severity := optSeverity.getD "medium"
  { category := category
    originalError := error
    message := error.message
    userFriendlyMessage := userFriendlyMessage
    userMessage := userFriendlyMessage
    suggestion := suggestion
    recoverable := recoverable
    severity := severity
    timestamp := now }

/-- One pass of a global regex replace, the way a JavaScript
`String.prototype.replace` with a `g` flag scans: at each position try the
matcher; on a match emit the replacement and continue after the match,
otherwise keep the character and move one position right. Every matcher
used below consumes at least one character, so fuel equal to the input
length runs the scan to completion. -/
def replaceScan (tryM : List Char → Option (List Char)) (repl : List Char) :
    Nat → List Char → List Char
  | 0, s => s
  | _ + 1, [] => []
  | fuel + 1, c :: rest =>
    match tryM (c :: rest) with
    | some rest2 => repl ++ replaceScan tryM repl fuel rest2
    | none => c :: replaceScan tryM repl fuel rest

/-- Global replace with fuel instantiated to the input length. -/
def runReplace (tryM : List Char → Option (List Char)) (repl : List Char)
    (s : List Char) : List Char :=
  replaceScan tryM repl s.length s

/-- Drop a literal from the head of the list (case sensitive). -/
def dropLit : List Char → List Char → Option (List Char)
  | [], s => some s
  | _ :: _, [] => none
  | l :: ls, c :: cs => if c = l then dropLit ls cs else none

/-- Drop a literal from the head of the list, comparing case-insensitively
(the `i` flag of the secret-masking regexes). -/
def dropLitCI : List Char → List Char → Option (List Char)
  | [], s => some s
  | _ :: _, [] => none
  | l :: ls, c :: cs => if c.toLower = l.toLower then dropLitCI ls cs else none

/-- Match a nonempty greedy run of characters satisfying `p` followed by
one character satisfying `q` (the shape `[^X]+X` of the directory
regexes); returns the remainder after the match. -/
def runThen (p q : Char → Bool) (s : List Char) : Option (List Char) :=
  match s.span p with
  | ([], _) => none
  | (_ :: _, c :: rest) => if q c then some rest else none
  | (_ :: _, []) => none

/-- Matcher for `\/Users\/[^/]+\//`. -/
def tryUsersDir (s : List Char) : Option (List Char) :=
  (dropLit "/Users/".data s).bind (runThen (fun c => c ≠ '/') (fun c => c = '/'))

/-- Matcher for `\/home\/[^/]+\//`. -/
def tryHomeDir (s : List Char) : Option (List Char) :=
  (dropLit "/home/".data s).bind (runThen (fun c => c ≠ '/') (fun c => c = '/'))

/-- Matcher for `C:\\Users\\[^\\]+\\/`. -/
def tryWinUsersDir (s : List Char) : Option (List Char) :=
  (dropLit "C:\\Users\\".data s).bind
    (runThen (fun c => c ≠ '\\') (fun c => c = '\\'))

/-- The JavaScript `\s` class restricted to its ASCII members (space, tab,
line feed, carriage return, vertical tab, form feed); the Unicode space
members do not occur in any message built by this code base. -/
def isJsSpace (c : Char) : Bool :=
  c = ' ' || c = '\t' || c = '\n' || c = '\r' ||
  c = Char.ofNat 11 || c = Char.ofNat 12

/-- Matcher for `lit[=:]\s*[^\s]+` with the `i` flag (the shape of the
`password`/`token`/`key` masking regexes): the literal case-insensitively,
one of `=`/`:`, greedy whitespace, then a nonempty greedy non-whitespace
run. -/
def trySecret (lit : List Char) (s : List Char) : Option (List Char) :=
  (dropLitCI lit s).bind fun r =>
    match r with
    | [] => none
    | c :: r2 =>
      if c = '=' ∨ c = ':' then
        match (r2.span isJsSpace).2.span (fun c => !isJsSpace c) with
        | ([], _) => none
        | (_ :: _, rest2) => some rest2
      else none

/-- Embeds `sanitizeErrorMessage(message)`: the six chained global replaces of the
source, in source order — macOS user directories, Linux home directories,
Windows user directories, then `password`/`token`/`key` value masking. -/
def sanitizeErrorMessage (message : String) : String :=
  let p1 := runReplace tryUsersDir "/Users/***/".data message.data
  let p2 := runReplace tryHomeDir "/home/***/".data p1
  let p3 := runReplace tryWinUsersDir "C:\\Users\\***\\".data p2
  let p4 := runReplace (trySecret "password".data) "password=***".data p3
  let p5 := runReplace (trySecret "token".data) "token=***".data p4
  let p6 := runReplace (trySecret "key".data) "key=***".data p5
  String.mk p6

/-- Embeds `handleError(error)`: sanitizes the user-friendly message and writes it
at `warn` level when recoverable, `error` level otherwise; modelled as the
(console level, line) pair it emits. -/
def handleError (error : EnhancedError) : String × String :=
  let sanitizedMessage := sanitizeErrorMessage error.userFriendlyMessage
  if error.recoverable then ("warn", "[Paths-LE] " ++ sanitizedMessage)
  else ("error", "[Paths-LE] " ++ sanitizedMessage)

/-- Embeds `createErrorLogger(outputChannel).logError(error)`: the lines appended
to the output channel — the header with the raw `error.message`, then the
stack line when a stack is present. The ISO timestamp is the `timestamp`
argument. -/
def logErrorLines (timestamp : String) (error : EnhancedError) : List String :=
  ("[" ++ timestamp ++ "] [ERROR] " ++ error.category ++ ": " ++ error.message)
    :: (match error.originalError.stack with
        | some st => ["Stack: " ++ st]
        | none => [])

/-- Embeds `categorizeError(error)`: keyword classification of the lower-cased
message, in source priority order. -/
def categorizeError (error : JsError) : String :=
  let message := error.message.toLower
  if strIncludes message "parse" || strIncludes message "syntax" then "parsing"
  else if strIncludes message "validation" || strIncludes message "invalid" then
    "validation"
  else if strIncludes message "permission" || strIncludes message "access" then
    "file-system"
  else if strIncludes message "config" || strIncludes message "setting" then
    "configuration"
  else if strIncludes message "safety" || strIncludes message "threshold" then
    "safety"
  else "operational"

/-- Embeds `determineSeverity(error, category)`. -/
def determineSeverity (error : JsError) (category : String) : String :=
  let message := error.message.toLower
  if strIncludes message "critical" || strIncludes message "fatal" then
    "critical"
  else if strIncludes message "error" || category = "file-system" then "error"
  else if strIncludes message "warning" || category = "validation" then
    "warning"
  else "info"

/-- Embeds `determineRecoveryAction(category, severity)`. -/
def determineRecoveryAction (category severity : String) : String :=
  if category = "file-system" ∧ severity = "error" then "retry"
  else if category = "parsing" ∨ category = "validation" then "skip"
  else if severity = "critical" then "abort"
  else "fallback"

/-- A concrete enhanced error whose message holds a Linux home-directory
segment, used to exercise the logger. -/
def homeDirLogExample : EnhancedError :=
  createEnhancedError 0 { message := "Error in /home/alice/secret.log" }
    "operational"

/-- C4 counterexample: `createErrorLogger`'s `logError` writes the raw
`error.message` into the output channel — the logged header line still
holds the user-directory segment `/home/alice/`, which `sanitizeErrorMessage`
removes; so this logged message did not pass through sanitization. -/
theorem logError_emits_unsanitized_message :
    hasSubstring "/home/alice/".data
      ((logErrorLines "2024-01-01T00:00:00.000Z" homeDirLogExample).headD
        "").data = true ∧
    hasSubstring "/home/alice/".data
      (sanitizeErrorMessage homeDirLogExample.message).data = false ∧
    sanitizeErrorMessage homeDirLogExample.message ≠
      homeDirLogExample.message := by decide

/-- C4 as amended: for every error and regardless of recoverability,
`handleError` emits `[Paths-LE] ` followed by the sanitized user-friendly
message (at `warn` level when recoverable, `error` level otherwise), while
`createErrorLogger`'s `logError` emits the raw unsanitized
`error.message`. -/
theorem handleError_sanitizes_logError_raw (e : EnhancedError) (ts : String) :
    handleError e = ((if e.recoverable then "warn" else "error"),
      "[Paths-LE] " ++ sanitizeErrorMessage e.userFriendlyMessage) ∧
    (logErrorLines ts e).headD "" =
      "[" ++ ts ++ "] [ERROR] " ++ e.category ++ ": " ++ e.message := by
  constructor
  · by_cases h : e.recoverable <;> simp [handleError, h]
  · rfl

/-- C6 counterexample: the `ParseError` that `extractPaths` produces for an
unsupported format has `recoveryAction = "none"`, which is not one of
`skip`, `retry`, `abort`, `fallback`. -/
theorem unsupported_format_recovery_action_is_none :
    (extractPaths trivialExtractors 0 "a" "markdown").errors.map
      (fun e => e.recoveryAction) = ["none"] ∧
    "none" ∉ (["skip", "retry", "abort", "fallback"] : List String) := by
  decide

/-- C6 as amended: `determineRecoveryAction` always yields one of `skip`,
`retry`, `abort`, `fallback`, but the unsupported-format `ParseError`
produced by `extractPaths` carries `recoveryAction = "none"` instead. -/
theorem determineRecoveryAction_mem_and_format_none :
    (∀ category severity : String,
      determineRecoveryAction category severity ∈
        (["skip", "retry", "abort", "fallback"] : List String)) ∧
    (∀ (ext : Extractors) (now : Nat) (content languageId : String),
      determineFileType languageId = .unknown →
      (extractPaths ext now content languageId).errors.map
        (fun e => e.recoveryAction) = ["none"]) := by
  constructor
  · intro category severity
    unfold determineRecoveryAction
    split_ifs <;> simp
  · intro ext now content languageId h
    have hres : extractPaths ext now content languageId =
        buildUnsupportedFormatResult now languageId := by
      simp [extractPaths, h]
    rw [hres]
    rfl

/-- Witness for the amended C6 at the concrete inputs `parsing`/`warning`
and language id `markdown`. -/
theorem determineRecoveryAction_mem_and_format_none_witness :
    determineRecoveryAction "parsing" "warning" ∈
      (["skip", "retry", "abort", "fallback"] : List String) ∧
    (extractPaths trivialExtractors 0 "x" "markdown").errors.map
      (fun e => e.recoveryAction) = ["none"] :=
  ⟨determineRecoveryAction_mem_and_format_none.1 "parsing" "warning",
   determineRecoveryAction_mem_and_format_none.2 trivialExtractors 0 "x"
     "markdown" (by decide)⟩

/-! Section: Configuration (`src/config/config.ts`) -/

/-- The host workspace-configuration capability
(`vscode.workspace.getConfiguration('paths-le')`): `config.get(key,
default)` per value kind, `none` when the key is not configured. Numeric
settings are modelled as integers. -/
structure WorkspaceConfig where
  num : String → Option Int
  bool : String → Option Bool
  str : String → Option String

/-- Embeds `readBoolean(config, key, defaultValue)`. -/
def readBoolean (ws : WorkspaceConfig) (key : String)
    (defaultValue : Bool) : Bool :=
  (ws.bool key).getD defaultValue

/-- Embeds `readString(config, key, defaultValue)`. -/
def readString (ws : WorkspaceConfig) (key : String)
    (defaultValue : String) : String :=
  (ws.str key).getD defaultValue

/-- Embeds `readNumber(config, key, defaultValue, minValue)`:
`Math.max(minValue, Number(config.get(key, defaultValue)))`. -/
def readNumber (ws : WorkspaceConfig) (key : String)
    (defaultValue minValue : Int) : Int :=
  max minValue ((ws.num key).getD defaultValue)

/-- Embeds `isValidNotificationLevel(v)`. -/
def isValidNotificationLevel (v : String) : Bool :=
  v = "all" || v = "important" || v = "silent"

/-- Embeds `readNotificationLevel(config)`: `notificationLevel` falling back to
the legacy `notificationsLevel` key, validated, defaulting to `silent`. -/
def readNotificationLevel (ws : WorkspaceConfig) : String :=
  let notifRaw :=
    (ws.str "notificationLevel").getD ((ws.str "notificationsLevel").getD "silent")
  if isValidNotificationLevel notifRaw then notifRaw else "silent"

/-- Embeds `isValidPreset(v)`. -/
def isValidPreset (v : String) : Bool :=
  v = "minimal" || v = "balanced" || v = "comprehensive" ||
  v = "performance" || v = "validation"

/-- Embeds `readPreset(config)`: `presets.defaultPreset`, validated, defaulting to
`balanced`. -/
def readPreset (ws : WorkspaceConfig) : String :=
  let presetValue := (ws.str "presets.defaultPreset").getD "balanced"
  if isValidPreset presetValue then presetValue else "balanced"

/-- The nested `resolution` block of the configuration. -/
structure ResolutionConfig where
  resolveSymlinks : Bool
  resolveWorkspaceRelative : Bool
  deriving DecidableEq, Repr

/-- The nested `validation` block of the configuration. -/
structure ValidationConfig where
  enabled : Bool
  checkExistence : Bool
  checkPermissions : Bool
  deriving DecidableEq, Repr

/-- The frozen `Configuration` record built by `getConfiguration`. -/
structure Configuration where
  copyToClipboardEnabled : Bool
  dedupeEnabled : Bool
  notificationsLevel : String
  postProcessOpenInNewFile : Bool
  openResultsSideBySide : Bool
  safetyEnabled : Bool
  safetyFileSizeWarnBytes : Int
  safetyLargeOutputLinesThreshold : Int
  safetyManyDocumentsThreshold : Int
  showParseErrors : Bool
  statusBarEnabled : Bool
  telemetryEnabled : Bool
  analysisEnabled : Bool
  analysisIncludeValidation : Bool
  analysisIncludePatterns : Bool
  validationEnabled : Bool
  validationCheckExistence : Bool
  validationCheckPermissions : Bool
  performanceEnabled : Bool
  performanceMaxDuration : Int
  performanceMaxMemoryUsage : Int
  performanceMaxCpuUsage : Int
  performanceMinThroughput : Int
  performanceMaxCacheSize : Int
  keyboardShortcutsEnabled : Bool
  keyboardExtractShortcut : String
  keyboardValidateShortcut : String
  keyboardAnalyzeShortcut : String
  presetsEnabled : Bool
  defaultPreset : String
  resolution : ResolutionConfig
  validation : ValidationConfig
  deriving DecidableEq, Repr

/-- Embeds `getConfiguration()`: reads every setting with its default, applying
the enforced floor (`minValue`) to each numeric threshold. -/
def getConfiguration (ws : WorkspaceConfig) : Configuration :=
  { copyToClipboardEnabled := readBoolean ws "copyToClipboardEnabled" false
    dedupeEnabled := readBoolean ws "dedupeEnabled" false
    notificationsLevel := readNotificationLevel ws
    postProcessOpenInNewFile := readBoolean ws "postProcess.openInNewFile" false
    openResultsSideBySide := readBoolean ws "openResultsSideBySide" false
    safetyEnabled := readBoolean ws "safety.enabled" true
    safetyFileSizeWarnBytes :=
      readNumber ws "safety.fileSizeWarnBytes" 1000000 1000
    safetyLargeOutputLinesThreshold :=
      readNumber ws "safety.largeOutputLinesThreshold" 50000 100
    safetyManyDocumentsThreshold :=
      readNumber ws "safety.manyDocumentsThreshold" 8 1
    showParseErrors := readBoolean ws "showParseErrors" false
    statusBarEnabled := readBoolean ws "statusBar.enabled" true
    telemetryEnabled := readBoolean ws "telemetryEnabled" false
    analysisEnabled := readBoolean ws "analysis.enabled" true
    analysisIncludeValidation := readBoolean ws "analysis.includeValidation" true
    analysisIncludePatterns := readBoolean ws "analysis.includePatterns" true
    validationEnabled := readBoolean ws "validation.enabled" true
    validationCheckExistence := readBoolean ws "validation.checkExistence" true
    validationCheckPermissions :=
      readBoolean ws "validation.checkPermissions" false
    performanceEnabled := readBoolean ws "performance.enabled" true
    performanceMaxDuration := readNumber ws "performance.maxDuration" 5000 1000
    performanceMaxMemoryUsage :=
      readNumber ws "performance.maxMemoryUsage" 104857600 1048576
    performanceMaxCpuUsage :=
      readNumber ws "performance.maxCpuUsage" 1000000 100000
    performanceMinThroughput :=
      readNumber ws "performance.minThroughput" 1000 100
    performanceMaxCacheSize :=
      readNumber ws "performance.maxCacheSize" 1000 100
    keyboardShortcutsEnabled := readBoolean ws "keyboard.shortcuts.enabled" true
    keyboardExtractShortcut :=
      readString ws "keyboard.extractShortcut" "ctrl+alt+p"
    keyboardValidateShortcut :=
      readString ws "keyboard.validateShortcut" "ctrl+alt+v"
    keyboardAnalyzeShortcut :=
      readString ws "keyboard.analyzeShortcut" "ctrl+alt+a"
    presetsEnabled := readBoolean ws "presets.enabled" true
    defaultPreset := readPreset ws
    resolution :=
      { resolveSymlinks := readBoolean ws "resolution.resolveSymlinks" false
        resolveWorkspaceRelative :=
          readBoolean ws "resolution.resolveWorkspaceRelative" false }
    validation :=
      { enabled := readBoolean ws "validation.enabled" true
        checkExistence := readBoolean ws "validation.checkExistence" true
        checkPermissions := readBoolean ws "validation.checkPermissions" false } }

/-- The configured raw value of a numeric key (`config.get(key,
defaultValue)` before the floor is applied). -/
def configuredNum (ws : WorkspaceConfig) (key : String) (defaultValue : Int) :
    Int :=
  (ws.num key).getD defaultValue

/-- C7: for each of the eight numeric threshold keys, the value returned by
`getConfiguration` equals `max(configuredValue, floor)` for that key's
enforced floor, and in particular is never below the floor. -/
theorem getConfiguration_numeric_floors (ws : WorkspaceConfig) :
    ((getConfiguration ws).safetyFileSizeWarnBytes =
        max (configuredNum ws "safety.fileSizeWarnBytes" 1000000) 1000 ∧
      1000 ≤ (getConfiguration ws).safetyFileSizeWarnBytes) ∧
    ((getConfiguration ws).safetyLargeOutputLinesThreshold =
        max (configuredNum ws "safety.largeOutputLinesThreshold" 50000) 100 ∧
      100 ≤ (getConfiguration ws).safetyLargeOutputLinesThreshold) ∧
    ((getConfiguration ws).safetyManyDocumentsThreshold =
        max (configuredNum ws "safety.manyDocumentsThreshold" 8) 1 ∧
      1 ≤ (getConfiguration ws).safetyManyDocumentsThreshold) ∧
    ((getConfiguration ws).performanceMaxDuration =
        max (configuredNum ws "performance.maxDuration" 5000) 1000 ∧
      1000 ≤ (getConfiguration ws).performanceMaxDuration) ∧
    ((getConfiguration ws).performanceMaxMemoryUsage =
        max (configuredNum ws "performance.maxMemoryUsage" 104857600) 1048576 ∧
      1048576 ≤ (getConfiguration ws).performanceMaxMemoryUsage) ∧
    ((getConfiguration ws).performanceMaxCpuUsage =
        max (configuredNum ws "performance.maxCpuUsage" 1000000) 100000 ∧
      100000 ≤ (getConfiguration ws).performanceMaxCpuUsage) ∧
    ((getConfiguration ws).performanceMinThroughput =
        max (configuredNum ws "performance.minThroughput" 1000) 100 ∧
      100 ≤ (getConfiguration ws).performanceMinThroughput) ∧
    ((getConfiguration ws).performanceMaxCacheSize =
        max (configuredNum ws "performance.maxCacheSize" 1000) 100 ∧
      100 ≤ (getConfiguration ws).performanceMaxCacheSize) := by
  refine ⟨⟨?_, ?_⟩, ⟨?_, ?_⟩, ⟨?_, ?_⟩, ⟨?_, ?_⟩, ⟨?_, ?_⟩, ⟨?_, ?_⟩,
    ⟨?_, ?_⟩, ⟨?_, ?_⟩⟩ <;>
    first
      | exact max_comm _ _
      | exact le_max_left _ _

/-! Section: Safety gate (`src/utils/safety.ts`) -/

/-- The host document capability: `getText()` is `content`, plus
`fileName`. -/
structure TextDocument where
  fileName : String
  content : String
  deriving DecidableEq, Repr

/-- The `customThresholds` option block of `SafetyCheckOptions`. -/
structure CustomThresholds where
  fileSizeBytes : Option Int := none
  lineCount : Option Int := none
  pathCount : Option Int := none
  deriving DecidableEq, Repr

/-- Embeds `SafetyCheckOptions` (`undefined` booleans behave as `false`). -/
structure SafetyCheckOptions where
  showProgress : Bool := false
  allowOverride : Bool := false
  customThresholds : Option CustomThresholds := none
  deriving DecidableEq, Repr

/-- A `SafetyResult` record `{ proceed, message, error?, warnings }`. -/
structure SafetyResult where
  proceed : Bool
  message : String
  error : Option EnhancedError := none
  warnings : List String
  deriving DecidableEq, Repr

/-- The two soft-warning counting heuristics of the safety gate
(`estimatePathCount` and `countComplexPatterns`). In the source they are
host-regex match counts over the content; their values feed only the
wording and presence of soft warnings, never the `proceed`/`error`
decision, so they are kept abstract and every theorem below quantifies
over an arbitrary pair of counting functions. -/
structure SafetyHeuristics where
  estimatePathCount : String → Nat
  countComplexPatterns : String → Nat

/-- Embeds `buildFileSizeError(fileSize, threshold, fileName)`: the hard-block
result with a non-recoverable, `high`-severity `safety` error and no
warnings. -/
def buildFileSizeError (now : Nat) (fileSize threshold : Int)
    (fileName : String) : SafetyResult :=
  let error := createEnhancedError now
    { message := "File size (" ++ toString fileSize ++
        " bytes) exceeds safety threshold (" ++ toString threshold ++
        " bytes)" }
    "safety" none (some false) (some "high")
    (some "Consider splitting the file or increasing the safety threshold in settings")
  { proceed := false
    message := error.userMessage
    error := some error
    warnings := [] }

/-- Embeds `collectSafetyWarnings(content, config, options)`: the three
independent soft checks — line count over threshold, estimated path count
over 1000, complex-pattern count over 100 — accumulated in order. The
unused `fileName` of the document does not appear here; `content.split('\n')`
is `String.splitOn "\n"`. -/
def collectSafetyWarnings (h : SafetyHeuristics) (content : String)
    (config : Configuration) (options : SafetyCheckOptions) : List String :=
  let lines := content.splitOn "\n"
  let lineCountThreshold :=
    (options.customThresholds.bind (fun t => t.lineCount)).getD
      config.safetyLargeOutputLinesThreshold
  let w1 : List String :=
    if (lines.length : Int) > lineCountThreshold then
      ["Large file detected: " ++ toString lines.length ++
        " lines (threshold: " ++ toString lineCountThreshold ++ ")"]
    else []
  let estimatedPaths := h.estimatePathCount content
  let w2 : List String :=
    if estimatedPaths > 1000 then
      ["Large number of paths detected: estimated " ++
        toString estimatedPaths ++ " paths"]
    else []
  let complexPatterns := h.countComplexPatterns content
  let w3 : List String :=
    if complexPatterns > 100 then
      ["Complex patterns detected: " ++ toString complexPatterns ++
        " patterns"]
    else []
  w1 ++ w2 ++ w3

/-- Embeds `buildSafetyMessage(warnings)`. -/
def buildSafetyMessage (warnings : List String) : String :=
  if warnings.length = 0 then "Safety checks passed"
  else "Safety checks passed with " ++ toString warnings.length ++ " warnings"

/-- Embeds `handleSafetyChecks(document, config, options)`. Note the hard block
compares `content.length` — the character count of the content (UTF-16
code units in JavaScript; code points here, equal on the concrete inputs
used below) — against `fileSizeThreshold`, even though the threshold and
the error message speak of bytes. -/
def handleSafetyChecks (h : SafetyHeuristics) (now : Nat)
    (document : TextDocument) (config : Configuration)
    (options : SafetyCheckOptions) : SafetyResult :=
  if !config.safetyEnabled then
    { proceed := true, message := "", error := none, warnings := [] }
  else
    let content := document.content
    let fileSizeThreshold :=
      (options.customThresholds.bind (fun t => t.fileSizeBytes)).getD
        config.safetyFileSizeWarnBytes
    if (content.length : Int) > fileSizeThreshold then
      buildFileSizeError now content.length fileSizeThreshold
        document.fileName
    else
      let warnings := collectSafetyWarnings h content config options
      { proceed := true
        message := buildSafetyMessage warnings
        error := none
        warnings := warnings }

/-- Embeds `handleSafetyChecksWithUserConfirmation(document, config, options)`.
The `promptUserOverride` dialog is modelled by consuming the next answer
from `responses` (dismissing the dialog is `false`, and an exhausted list
behaves as a dismissal); the third component of the result counts the
prompts this call showed. The source keeps no record of an approved
override — every call recomputes `handleSafetyChecks` and prompts
afresh. -/
def handleSafetyChecksWithUserConfirmation (h : SafetyHeuristics) (now : Nat)
    (document : TextDocument) (config : Configuration)
    (options : SafetyCheckOptions) (responses : List Bool) :
    SafetyResult × List Bool × Nat :=
  let result := handleSafetyChecks h now document config options
  if !result.proceed && options.allowOverride then
    match responses with
    | shouldContinue :: rest =>
      if shouldContinue then
        ({ result with
            proceed := true
            message := "Safety override approved by user" }, rest, 1)
      else (result, rest, 1)
    | [] => (result, [], 1)
  else (result, responses, 0)

/-- The UTF-8 byte length of a string: the quantity the specification's
file-size threshold refers to (`safety.fileSizeWarnBytes`). -/
def utf8ByteLen (s : String) : Nat :=
  s.data.foldl (fun n c => n + c.utf8Size) 0

/-- Heuristics that count nothing, a concrete instantiation for witnesses
(the theorems hold for every pair of counting functions). -/
def trivialHeuristics : SafetyHeuristics :=
  { estimatePathCount := fun _ => 0
    countComplexPatterns := fun _ => 0 }

/-- The workspace configuration with nothing configured: every setting
takes its default. -/
def emptyWorkspace : WorkspaceConfig :=
  { num := fun _ => none, bool := fun _ => none, str := fun _ => none }

/-- The all-defaults configuration (safety enabled). -/
def defaultConfig : Configuration := getConfiguration emptyWorkspace

/-- A document whose content is two two-byte characters: 2 characters,
4 UTF-8 bytes. -/
def accentDoc : TextDocument := { fileName := "a.txt", content := "éé" }

/-- A document of four ASCII characters. -/
def blockedDoc : TextDocument := { fileName := "b.txt", content := "aaaa" }

/-- Options with a custom file-size threshold of 3. -/
def customOpts3 : SafetyCheckOptions :=
  { customThresholds := some { fileSizeBytes := some 3 } }

/-- C2: the safety gate compares the character count of the content, not
its byte length, against the file-size threshold: on a 2-character,
4-byte content with a custom threshold of 3 (safety enabled), the UTF-8
byte length exceeds the threshold yet the character count does not, and
`handleSafetyChecks` proceeds instead of hard-blocking. -/
theorem fileSize_check_counts_chars_not_bytes :
    defaultConfig.safetyEnabled = true ∧
    (utf8ByteLen accentDoc.content : Int) > 3 ∧
    ¬((accentDoc.content.length : Int) > 3) ∧
    (handleSafetyChecks trivialHeuristics 0 accentDoc defaultConfig
      customOpts3).proceed = true := by
  decide

/-- Case split on the outcome of `handleSafetyChecks`: either it proceeds,
or it is exactly the file-size hard block. -/
theorem handleSafetyChecks_proceed_or_blocked (h : SafetyHeuristics)
    (now : Nat) (document : TextDocument) (config : Configuration)
    (options : SafetyCheckOptions) :
    (handleSafetyChecks h now document config options).proceed = true ∨
    handleSafetyChecks h now document config options =
      buildFileSizeError now document.content.length
        ((options.customThresholds.bind (fun t => t.fileSizeBytes)).getD
          config.safetyFileSizeWarnBytes) document.fileName := by
  simp only [handleSafetyChecks]
  split_ifs with h1 h2
  · left; rfl
  · right; rfl
  · left; rfl

/-- C3: every `SafetyResult` produced by `handleSafetyChecks` or
`handleSafetyChecksWithUserConfirmation` satisfies: `proceed = false`
implies the error field is set and the warnings list is empty. -/
theorem safetyResult_blocked_invariant (h : SafetyHeuristics) (now : Nat)
    (document : TextDocument) (config : Configuration)
    (options : SafetyCheckOptions) (responses : List Bool) :
    ((handleSafetyChecks h now document config options).proceed = false →
      (handleSafetyChecks h now document config options).error.isSome = true ∧
      (handleSafetyChecks h now document config options).warnings = []) ∧
    ((handleSafetyChecksWithUserConfirmation h now document config options
        responses).1.proceed = false →
      (handleSafetyChecksWithUserConfirmation h now document config options
        responses).1.error.isSome = true ∧
      (handleSafetyChecksWithUserConfirmation h now document config options
        responses).1.warnings = []) := by
  have base : (handleSafetyChecks h now document config options).proceed =
      false →
      (handleSafetyChecks h now document config options).error.isSome = true ∧
      (handleSafetyChecks h now document config options).warnings = [] := by
    intro hp
    rcases handleSafetyChecks_proceed_or_blocked h now document config
      options with hcase | hcase
    · rw [hcase] at hp; cases hp
    · rw [hcase]; exact ⟨rfl, rfl⟩
  refine ⟨base, ?_⟩
  intro hp
  unfold handleSafetyChecksWithUserConfirmation at hp ⊢
  by_cases hc : (!(handleSafetyChecks h now document config
      options).proceed && options.allowOverride) = true
  · simp only [hc, if_pos] at hp ⊢
    cases responses with
    | nil => exact base hp
    | cons shouldContinue rest =>
      by_cases hsc : shouldContinue = true
      · simp only [hsc, if_pos] at hp; cases hp
      · simp only [Bool.not_eq_true] at hsc
        simp only [hsc, Bool.false_eq_true, if_false] at hp ⊢
        exact base hp
  · simp only [hc, if_false] at hp ⊢
    exact base hp

/-- Witness for C3 at a concretely hard-blocked call (content of 4
characters, custom threshold 3), for both the bare check and the
user-confirmation wrapper with no responses. -/
theorem safetyResult_blocked_invariant_witness :
    ((handleSafetyChecks trivialHeuristics 0 blockedDoc defaultConfig
        customOpts3).error.isSome = true ∧
      (handleSafetyChecks trivialHeuristics 0 blockedDoc defaultConfig
        customOpts3).warnings = []) ∧
    ((handleSafetyChecksWithUserConfirmation trivialHeuristics 0 blockedDoc
        defaultConfig customOpts3 []).1.error.isSome = true ∧
      (handleSafetyChecksWithUserConfirmation trivialHeuristics 0 blockedDoc
        defaultConfig customOpts3 []).1.warnings = []) :=
  ⟨(safetyResult_blocked_invariant trivialHeuristics 0 blockedDoc
      defaultConfig customOpts3 []).1 (by decide),
   (safetyResult_blocked_invariant trivialHeuristics 0 blockedDoc
      defaultConfig customOpts3 []).2 (by decide)⟩

/-- Options that allow overriding, with a custom file-size threshold of
3. -/
def overrideOpts : SafetyCheckOptions :=
  { allowOverride := true
    customThresholds := some { fileSizeBytes := some 3 } }

/-- First wrapper call of a session in which the user would answer
`Continue Anyway` and then `Cancel`. -/
def overrideSession1 : SafetyResult × List Bool × Nat :=
  handleSafetyChecksWithUserConfirmation trivialHeuristics 0 blockedDoc
    defaultConfig overrideOpts [true, false]

/-- Second wrapper call on the same document with the responses left by
the first call. -/
def overrideSession2 : SafetyResult × List Bool × Nat :=
  handleSafetyChecksWithUserConfirmation trivialHeuristics 0 blockedDoc
    defaultConfig overrideOpts overrideSession1.2.1

/-- C5 counterexample: after the user approves the override (first call
returns `proceed = true` having prompted once), a repeated call of
`handleSafetyChecksWithUserConfirmation` on the same document in the same
session prompts again (one more prompt, not zero) and, with the next
answer a refusal, returns `proceed = false` — no override is recorded for
the session. -/
theorem repeated_override_call_prompts_again :
    overrideSession1.1.proceed = true ∧
    overrideSession1.2.2 = 1 ∧
    overrideSession2.2.2 = 1 ∧
    overrideSession2.1.proceed = false := by
  decide

/-- C5 as amended: the wrapper records nothing between calls — every call
whose safety check hard-blocks and whose options allow overriding shows
exactly one prompt, and returns `proceed = true` precisely when the user's
next answer approves; a repeated call on the same document therefore
prompts again instead of reusing the earlier approval. -/
theorem override_prompts_on_every_call (h : SafetyHeuristics) (now : Nat)
    (document : TextDocument) (config : Configuration)
    (options : SafetyCheckOptions) (responses : List Bool)
    (hblock : (handleSafetyChecks h now document config options).proceed =
      false)
    (hover : options.allowOverride = true) :
    (handleSafetyChecksWithUserConfirmation h now document config options
      responses).2.2 = 1 ∧
    (handleSafetyChecksWithUserConfirmation h now document config options
      responses).1.proceed = responses.headD false := by
  unfold handleSafetyChecksWithUserConfirmation
  simp only [hblock, hover, Bool.not_false, Bool.and_self, if_pos]
  cases responses with
  | nil => exact ⟨rfl, hblock⟩
  | cons shouldContinue rest =>
    by_cases hsc : shouldContinue = true
    · simp [hsc]
    · simp only [Bool.not_eq_true] at hsc
      simp [hsc, hblock]

/-- Witness for the amended C5 at a concretely blocked call whose user
approves: one prompt is shown and the call proceeds. -/
theorem override_prompts_on_every_call_witness :
    (handleSafetyChecksWithUserConfirmation trivialHeuristics 0 blockedDoc
      defaultConfig overrideOpts [true]).2.2 = 1 ∧
    (handleSafetyChecksWithUserConfirmation trivialHeuristics 0 blockedDoc
      defaultConfig overrideOpts [true]).1.proceed = ([true] : List Bool).headD
        false :=
  override_prompts_on_every_call trivialHeuristics 0 blockedDoc defaultConfig
    overrideOpts [true] (by decide) (by decide)

/-! Section: Batch path resolution (`src/commands/extract.ts`) -/

/-- Default used by positional lookups into the path list. -/
def defaultPathItem : PathItem := { value := "" }

/-- Embeds `resolvePathsIfNeeded(paths, config, canonicalEnabled, deps)`: when
canonical resolution is disabled, the raw values in input order; when
enabled, `Promise.all(paths.map(...))`, which collects the per-path
resolutions by index — modelled as the index-ordered map. The canonical
resolver (`resolvePathCanonical` with its workspace-folder lookup, a
best-effort filesystem operation) is the abstract `resolve` argument, and
the resolved/fallback counters drive only status-bar text and are not part
of the returned value. -/
def resolvePathsIfNeeded (resolve : String → String) (paths : List PathItem)
    (canonicalEnabled : Bool) : List String :=
  if !canonicalEnabled then paths.map (fun p => p.value)
  else paths.map (fun p => resolve p.value)

/-- An arbitrary concurrent execution of the batch: the slots of the
result start unfilled, and each step of the completion schedule `sched`
writes the resolution of path `j` into slot `j`, in whatever order the
schedule interleaves the resolutions. -/
def runBatchWith (resolve : String → String) (paths : List PathItem)
    (sched : List Nat) : List (Option String) :=
  sched.foldl
    (fun acc j =>
      acc.set j (some (resolve (paths.getD j defaultPathItem).value)))
    (List.replicate paths.length none)

theorem foldl_set_length (f : Nat → Option String) (sched : List Nat)
    (acc : List (Option String)) :
    (sched.foldl (fun acc j => acc.set j (f j)) acc).length = acc.length := by
  induction sched generalizing acc with
  | nil => rfl
  | cons j rest ih => simp [List.foldl_cons, ih, List.length_set]

theorem foldl_set_getElem? (f : Nat → Option String) (sched : List Nat)
    (acc : List (Option String)) (i : Nat) (hi : i < acc.length) :
    (sched.foldl (fun acc j => acc.set j (f j)) acc)[i]? =
      if i ∈ sched then some (f i) else acc[i]? := by
  induction sched generalizing acc with
  | nil => simp
  | cons j rest ih =>
    have hlen : i < (acc.set j (f j)).length := by
      simpa [List.length_set] using hi
    rw [List.foldl_cons, ih (acc.set j (f j)) hlen]
    by_cases hmem : i ∈ rest
    · simp [hmem, List.mem_cons]
    · by_cases hij : i = j
      · subst hij
        simp [hmem, List.mem_cons, List.getElem?_set_eq_of_lt _ hi]
      · simp [hmem, List.mem_cons, hij, List.getElem?_set_ne (Ne.symm hij)]

theorem runBatchWith_eq_map (resolve : String → String)
    (paths : List PathItem) (sched : List Nat)
    (hsched : ∀ i < paths.length, i ∈ sched) :
    runBatchWith resolve paths sched =
      paths.map (fun p => some (resolve p.value)) := by
  apply List.ext_getElem?
  intro i
  by_cases hi : i < paths.length
  · rw [runBatchWith,
      foldl_set_getElem? _ sched (List.replicate paths.length none) i
        (by simpa [List.length_replicate] using hi),
      if_pos (hsched i hi)]
    simp [List.getElem?_map, List.getElem?_eq_getElem hi, List.getD,
      List.getD_eq_getElem?_getD]
  · have h1 : (runBatchWith resolve paths sched).length = paths.length := by
      simp [runBatchWith, foldl_set_length, List.length_replicate]
    rw [List.getElem?_eq_none (by omega),
      List.getElem?_eq_none (by simp [List.length_map]; omega)]

/-- C8: with canonical resolution enabled, the batch result has the same
length as the input and its element at every index `i` is the resolution
of the input path at index `i`; moreover every concurrent completion
schedule that resolves each index fills the slots to exactly that
input-ordered list — concurrency cannot reorder results. -/
theorem batch_resolution_preserves_input_order (resolve : String → String)
    (paths : List PathItem) (sched : List Nat)
    (hsched : ∀ i < paths.length, i ∈ sched) :
    (resolvePathsIfNeeded resolve paths true).length = paths.length ∧
    (∀ i : Nat, (resolvePathsIfNeeded resolve paths true)[i]? =
      (paths[i]?).map (fun p => resolve p.value)) ∧
    runBatchWith resolve paths sched =
      (resolvePathsIfNeeded resolve paths true).map some := by
  refine ⟨by simp [resolvePathsIfNeeded],
    fun i => by simp [resolvePathsIfNeeded], ?_⟩
  rw [runBatchWith_eq_map resolve paths sched hsched]
  simp [resolvePathsIfNeeded, List.map_map]

/-- Example batch for the C8 witness. -/
def examplePaths : List PathItem :=
  [{ value := "a" }, { value := "b" }, { value := "c" }]

/-- Example resolver for the C8 witness. -/
def exampleResolve : String → String := fun s => "/ws/" ++ s

/-- Witness for C8 with a completion schedule that finishes the last path
first. -/
theorem batch_resolution_preserves_input_order_witness :
    (resolvePathsIfNeeded exampleResolve examplePaths true).length =
      examplePaths.length ∧
    runBatchWith exampleResolve examplePaths [2, 0, 1] =
      (resolvePathsIfNeeded exampleResolve examplePaths true).map some :=
  ⟨(batch_resolution_preserves_input_order exampleResolve examplePaths
      [2, 0, 1] (by decide)).1,
   (batch_resolution_preserves_input_order exampleResolve examplePaths
      [2, 0, 1] (by decide)).2.2⟩

/-! Section: Dedupe post-processing command -/

/-- The loop body of `deduplicateLines`: `seen` is the set of lines kept
so far (a `Set<string>` in the source, modelled as the list of its
elements, so `seen.has(line)` is `seen.contains line`), and a line is
skipped when it is empty or already seen. -/
def dedupGo (seen : List String) : List String → List String
  | [] => []
  | line :: rest =>
    if line = "" ∨ seen.contains line = true then dedupGo seen rest
    else line :: dedupGo (line :: seen) rest

/-- Embeds `deduplicateLines(lines)`. -/
def deduplicateLines (lines : List String) : List String := dedupGo [] lines

/-- The claim's specification of deduplication, written from its words:
drop empty lines, keep the first occurrence of each line in first-seen
order and remove every later duplicate of it. -/
def specDedupFirst : List String → List String
  | [] => []
  | x :: xs =>
    if x = "" then specDedupFirst xs
    else x :: specDedupFirst (xs.filter (fun y => y != x))
  termination_by l => l.length
  decreasing_by
    all_goals simp_wf
    all_goals first
      | omega
      | exact Nat.lt_succ_of_le (List.length_filter_le _ _)

theorem specDedupFirst_nil : specDedupFirst [] = [] := by
  rw [specDedupFirst.eq_def]

theorem specDedupFirst_cons (x : String) (xs : List String) :
    specDedupFirst (x :: xs) =
      if x = "" then specDedupFirst xs
      else x :: specDedupFirst (xs.filter (fun y => y != x)) := by
  rw [specDedupFirst.eq_def]

theorem contains_cons_filter (x : String) (seen : List String) :
    ∀ y, (!(List.contains (x :: seen) y)) =
      ((!(seen.contains y)) && (y != x)) := by
  intro y
  by_cases h1 : y = x
  · subst h1
    simp [List.contains_cons]
  · simp [List.contains_cons, bne, h1, Ne.symm h1]

theorem dedupGo_eq_spec (l : List String) : ∀ seen : List String,
    dedupGo seen l = specDedupFirst (l.filter (fun y => !seen.contains y)) := by
  induction l with
  | nil =>
    intro seen
    simp only [dedupGo, List.filter_nil, specDedupFirst_nil]
  | cons x xs ih =>
    intro seen
    by_cases hseen : seen.contains x = true
    · have hstep : dedupGo seen (x :: xs) = dedupGo seen xs := by
        simp only [dedupGo]
        rw [if_pos (Or.inr hseen)]
      have hfneg : (x :: xs).filter (fun y => !seen.contains y) =
          xs.filter (fun y => !seen.contains y) :=
        List.filter_cons_of_neg (by simpa using hseen)
      rw [hstep, hfneg, ih seen]
    · have hseen' : seen.contains x = false := by
        simpa using hseen
      have hfpos : (x :: xs).filter (fun y => !seen.contains y) =
          x :: xs.filter (fun y => !seen.contains y) :=
        List.filter_cons_of_pos (by simpa using hseen')
      by_cases hx : x = ""
      · subst hx
        have hstep : dedupGo seen ("" :: xs) = dedupGo seen xs := by
          simp only [dedupGo]
          rw [if_pos (Or.inl trivial)]
        rw [hstep, hfpos, specDedupFirst_cons, if_pos rfl, ih seen]
      · have hstep : dedupGo seen (x :: xs) = x :: dedupGo (x :: seen) xs := by
          simp only [dedupGo]
          rw [if_neg]
          push_neg
          exact ⟨hx, by simpa using hseen'⟩
        have hfilter : xs.filter (fun y => !(List.contains (x :: seen) y)) =
            (xs.filter (fun y => !seen.contains y)).filter
              (fun y => y != x) := by
          rw [List.filter_filter]
          refine List.filter_congr fun y _ => ?_
          rw [contains_cons_filter x seen y, Bool.and_comm]
        rw [hstep, hfpos, specDedupFirst_cons, if_neg hx, ih (x :: seen),
          hfilter]

/-- C9: `deduplicateLines` returns the first occurrences of the non-empty
lines in first-seen order (it coincides with `specDedupFirst`, the claim's
description), and on `['a','b','a','','c','b']` it returns
`['a','b','c']`. -/
theorem deduplicateLines_first_occurrences :
    (∀ lines : List String, deduplicateLines lines = specDedupFirst lines) ∧
    deduplicateLines ["a", "b", "a", "", "c", "b"] = ["a", "b", "c"] := by
  constructor
  · intro lines
    have h := dedupGo_eq_spec lines []
    simpa [deduplicateLines] using h
  · decide
